import Mathlib

/-!
Shallow embedding of the narrative auto-generation engine of the
chiro_emr_desktop application (HOI.py, plan_page.py, subjectives.py,
ui_blocks.py, utils.py, diagnosis_page.py, HOIpdf.py, pdf_export.py),
together with theorems that settle the frozen claims about it.

Python string primitives used by the source (str.strip, str.lower,
str.splitlines, truthiness of strings) are reimplemented over List Char so
that every definition is executable and kernel-reducible.  All data handled
by the narrative engine is ASCII, so the ASCII-only treatment of case and
whitespace below coincides with Python's behaviour on the data of interest.
-/

namespace ChiroEMR

/-- ASCII lower-casing of a character, as Python str.lower acts on ASCII. -/
def pyCharLower (c : Char) : Char :=
  if 65 ≤ c.toNat ∧ c.toNat ≤ 90 then Char.ofNat (c.toNat + 32) else c

/-- Python str.lower (ASCII fragment). -/
def pyLower (s : String) : String :=
  ⟨s.data.map pyCharLower⟩

/-- Python whitespace (the ASCII characters stripped by str.strip and matched
by the regex class backslash-s). -/
def isPySpace (c : Char) : Bool :=
  c == ' ' || c == '\t' || c == '\n' || c == '\r' || c == '\x0b' || c == '\x0c'

/-- Strip leading and trailing whitespace from a character list. -/
def pyStripList (l : List Char) : List Char :=
  ((l.dropWhile isPySpace).reverse.dropWhile isPySpace).reverse

/-- Python str.strip(): also the `_clean` helper defined (identically) in
HOI.py, plan_page.py, diagnosis_page.py and HOIpdf.py. -/
def pyStrip (s : String) : String :=
  ⟨pyStripList s.data⟩

/-- Membership of a pattern as a plain substring (case-sensitive), as Python's
`in` operator on strings.  Used by utils.build_sentence ("pain" in t). -/
def listContainsSub (pat : List Char) : List Char → Bool
  | [] => pat.isEmpty
  | c :: cs => pat.isPrefixOf (c :: cs) || listContainsSub pat cs

/-- Substring test on strings (Python `pat in s`). -/
def containsSub (s pat : String) : Bool :=
  listContainsSub pat.data s.data

-- ---------------------------------------------------------------------------
-- HOI.py module-level helpers
-- ---------------------------------------------------------------------------

namespace HOI

/-- HOI.py: AUTO_MOI_TAG = "[AUTO:MOI]". -/
def AUTO_MOI_TAG : String := "[AUTO:MOI]"

/-- HOI.py `_join_with_and`: "", sole item, "A and B", or Oxford-comma list. -/
def joinWithAnd : List String → String
  | [] => ""
  | [a] => a
  | [a, b] => a ++ " and " ++ b
  | a :: rest => String.intercalate (", ") (a :: rest.dropLast) ++ ", and " ++ rest.getLastD ""

/-- HOI.py `_dedupe_preserve_order` (seen-set accumulator over lower-cased,
stripped items; keeps the first occurrence's stripped spelling). -/
def dedupeAux (seen : List String) : List String → List String
  | [] => []
  | x :: xs =>
    let s := pyStrip x
    let k := pyLower s
    if s == "" || seen.contains k then dedupeAux seen xs
    else s :: dedupeAux (k :: seen) xs

/-- HOI.py `_dedupe_preserve_order` (also defined identically in plan_page.py). -/
def dedupePreserveOrder (items : List String) : List String :=
  dedupeAux [] items

/-- HOIPage._ensure_period: strip; empty stays empty; append "." unless the
text already ends in ".", "!" or "?". -/
def ensurePeriod (s : String) : String :=
  let t := pyStrip s
  if t == "" then ""
  else
    let last := t.data.getLastD ' '
    if last == '.' || last == '!' || last == '?' then t else t ++ "."

/-- HOIPage._human_join: strip items, drop blanks, then join as "", sole item,
"A and B", or Oxford-comma list.  (The Python filters on truthiness of the raw
item and of the stripped item; both collapse to "stripped item nonempty".) -/
def humanJoin (items : List String) : String :=
  let cleaned := items.filterMap (fun i => let t := pyStrip i; if t == "" then none else some t)
  match cleaned with
  | [] => ""
  | [a] => a
  | [a, b] => a ++ " and " ++ b
  | a :: rest => String.intercalate (", ") (a :: rest.dropLast) ++ ", and " ++ rest.getLastD ""

/-- HOIPage._normalize_img_type: fixed table with fallback to lower-case. -/
def normalizeImgType (t : String) : String :=
  let t := pyStrip t
  if t == "" then ""
  else if t == "X-rays" then "x-ray films"
  else if t == "MRI" then "MRI studies"
  else if t == "CT" then "CT scans"
  else if t == "Ultrasound" then "ultrasound images"
  else if t == "Other" then "other imaging"
  else pyLower t

-- ---------------------------------------------------------------------------
-- Review-of-Findings (ROF) imaging builder: HOIPage._regen_rof_now
-- ---------------------------------------------------------------------------

/-- One ROF imaging block as returned by ROFImagingBlock.get_selected():
the raw field values of one UI block.  (Python's dict key "type" is named
`itype` here, matching the local variable in `_regen_rof_now`.) -/
structure ROFBlockSel where
  itype : String
  parts : List String
  facility : String
  city : String
  date : String
deriving Repr, DecidableEq

/-- One collected entry of `_regen_rof_now` (fields cleaned; parts filtered to
those with nonempty strip, original spellings kept). -/
structure ROFEntry where
  itype : String
  parts : List String
  facility : String
  city : String
  date : String
deriving Repr, DecidableEq

/-- Entry collection loop of `_regen_rof_now`: clean the fields of each block
and skip blocks with no type, no parts, no facility and no city. -/
def collectROFEntries (blocks : List ROFBlockSel) : List ROFEntry :=
  blocks.filterMap (fun b =>
    let itype := pyStrip b.itype
    let parts := b.parts.filter (fun p => pyStrip p != "")
    let fac := pyStrip b.facility
    let city := pyStrip b.city
    let date := pyStrip b.date
    if (itype == "" || itype == "(none)") && parts.isEmpty
        && (fac == "" || fac == "(none)") && city == "" then none
    else some ⟨itype, parts, fac, city, date⟩)

/-- First-seen order of (facility, city) keys, as the `grouped_order` list of
`_regen_rof_now` (grouping key is the raw cleaned pair, before any placeholder
normalization). -/
def groupKeysAux (seen : List (String × String)) : List ROFEntry → List (String × String)
  | [] => []
  | e :: es =>
    let k := (e.facility, e.city)
    if seen.contains k then groupKeysAux seen es
    else k :: groupKeysAux (k :: seen) es

/-- The `grouped_order` list: keys in first-seen order. -/
def groupKeysOf (entries : List ROFEntry) : List (String × String) :=
  groupKeysAux [] entries

/-- The `grouped[key]` lists: entries of one group in first-seen order. -/
def groupItems (entries : List ROFEntry) (k : String × String) : List ROFEntry :=
  entries.filter (fun e => (e.facility, e.city) == k)

/-- `facility_text` (local to `_regen_rof_now`): place phrase with placeholder
values "(none)"/"none"/"n/a" collapsing to empty, applied AFTER grouping. -/
def facilityText (facility city : String) : String :=
  let fac := pyStrip facility
  let c := pyStrip city
  let fac := if pyLower fac == "(none)" || pyLower fac == "none" || pyLower fac == "n/a" then "" else fac
  let c := if pyLower c == "(none)" || pyLower c == "none" || pyLower c == "n/a" then "" else c
  if fac != "" && c != "" then fac ++ " in " ++ c
  else if fac != "" then fac
  else if c != "" then c
  else ""

/-- Phrase for one entry inside `detail_for_items` (empty when the entry
contributes no phrase). -/
def detailPhrase (it : ROFEntry) : String :=
  let t := pyStrip it.itype
  let parts := it.parts.filterMap (fun p => if pyStrip p == "" then none else some (pyLower (pyStrip p)))
  if t != "" && t != "(none)" && !parts.isEmpty then
    normalizeImgType t ++ " of the " ++ humanJoin parts
  else if t != "" && t != "(none)" then normalizeImgType t
  else if !parts.isEmpty then "imaging of the " ++ humanJoin parts
  else ""

/-- `detail_for_items`: join the per-entry phrases (blanks dropped). -/
def detailForItems (items : List ROFEntry) : String :=
  humanJoin ((items.map detailPhrase).filter (fun p => pyStrip p != ""))

/-- Nonempty cleaned dates of a group, in order (the `dates` list). -/
def datesOf (items : List ROFEntry) : List String :=
  items.filterMap (fun it => let d := pyStrip it.date; if d == "" then none else some d)

/-- The `uniq_dates` loop: first-seen distinct dates under case-insensitive
comparison, keeping the first-seen spelling. -/
def uniqDatesAux (seen : List String) : List String → List String
  | [] => []
  | d :: ds =>
    if seen.contains (pyLower d) then uniqDatesAux seen ds
    else d :: uniqDatesAux (pyLower d :: seen) ds

/-- The `uniq_dates` list of `_regen_rof_now`. -/
def uniqDates (ds : List String) : List String :=
  uniqDatesAux [] ds

/-- The `date_clause`: " on date" when exactly one distinct date, else "". -/
def dateClauseFor (items : List ROFEntry) : String :=
  match uniqDates (datesOf items) with
  | [d] => " on " ++ d
  | _ => ""

/-- The four sentence templates of `_regen_rof_now`, selected by group ordinal
clamped to the last template, each with a with-place and a place-less form. -/
def groupSentence (idx : Nat) (detail dateClause place : String) : String :=
  let t := min idx 3
  if place != "" then
    if t == 0 then "which included " ++ detail ++ dateClause ++ " at " ++ place ++ "."
    else if t == 1 then "The patient also received " ++ detail ++ dateClause ++ " at " ++ place ++ "."
    else if t == 2 then "Additionally, " ++ detail ++ " were obtained" ++ dateClause ++ " at " ++ place ++ "."
    else "Furthermore, " ++ detail ++ " were completed" ++ dateClause ++ " at " ++ place ++ "."
  else
    if t == 0 then "The imaging included " ++ detail ++ dateClause ++ "."
    else if t == 1 then "The patient also received " ++ detail ++ dateClause ++ "."
    else if t == 2 then "Additionally, " ++ detail ++ " were obtained" ++ dateClause ++ "."
    else "Furthermore, " ++ detail ++ " were completed" ++ dateClause ++ "."

/-- One loop iteration of `_regen_rof_now`: the sentence of the group at the
given ordinal, or none when the group's detail phrase is empty (`continue`). -/
def groupChunk (entries : List ROFEntry) (idx : Nat) (k : String × String) : Option String :=
  let items := groupItems entries k
  let detail := detailForItems items
  if detail == "" then none
  else some (groupSentence idx detail (dateClauseFor items) (facilityText k.1 k.2))

/-- The `chunks` list: anchor sentence, then sentences of the first 4 groups. -/
def rofChunks (first : String) (entries : List ROFEntry) : List String :=
  (first ++ " underwent diagnostic imaging,")
    :: ((groupKeysOf entries).take 4).enum.filterMap (fun p => groupChunk entries p.1 p.2)

/-- HOIPage._regen_rof_now as a function of the section mode, the patient
first name from the provider, and the ROF imaging blocks: the text stored in
`rof_auto_paragraph_var`.  Modes other than "ROF" store "". -/
def rofAutoText (mode first : String) (blocks : List ROFBlockSel) : String :=
  if pyStrip mode != "ROF" then ""
  else
    let firstName := if pyStrip first == "" then "The patient" else pyStrip first
    let entries := collectROFEntries blocks
    if entries.isEmpty then ""
    else String.intercalate (" ") ((rofChunks firstName entries).filter (fun c => pyStrip c != ""))

/-- Claim-side variant of the ROF builder for claim C5, following the claim's
words: placeholder facility/city values ("(none)"/"none"/"n/a") collapse to
the empty string BEFORE grouping, so the grouping key is the normalized pair.
Everything else is as in `rofAutoText`. -/
def normPlaceholder (s : String) : String :=
  let t := pyStrip s
  if pyLower t == "(none)" || pyLower t == "none" || pyLower t == "n/a" then "" else t

/-- Claim-side ROF builder with normalization before grouping (for C5). -/
def rofAutoTextNormalizedGrouping (mode first : String) (blocks : List ROFBlockSel) : String :=
  if pyStrip mode != "ROF" then ""
  else
    let firstName := if pyStrip first == "" then "The patient" else pyStrip first
    let entries := (collectROFEntries blocks).map
      (fun e => { e with facility := normPlaceholder e.facility, city := normPlaceholder e.city })
    if entries.isEmpty then ""
    else String.intercalate (" ") ((rofChunks firstName entries).filter (fun c => pyStrip c != ""))

/-- Concrete input for claim C5's counterexample: two non-empty blocks whose
facilities are the two placeholder spellings "(none)" and "none". -/
def rofPlaceholderBlocks : List ROFBlockSel :=
  [⟨"MRI", [], "(none)", "", ""⟩, ⟨"CT", [], "none", "", ""⟩]

/-- Concrete input for claim C5's amended scenario: six blocks with six
distinct (facility, city) pairs, one valid entry each. -/
def rofSixBlocks : List ROFBlockSel :=
  [⟨"MRI", [], "Alpha", "Irvine", ""⟩,
   ⟨"MRI", [], "Bravo", "Tustin", ""⟩,
   ⟨"MRI", [], "Charlie", "Orange", ""⟩,
   ⟨"MRI", [], "Delta", "Anaheim", ""⟩,
   ⟨"MRI", [], "Echo", "Brea", ""⟩,
   ⟨"MRI", [], "Foxtrot", "Fullerton", ""⟩]

/-- Concrete input for claim C10: five groups; the first block has a facility
only (no imaging type, no body parts), the other four each render a sentence. -/
def rofSlotBlocks : List ROFBlockSel :=
  [⟨"", [], "Alpha", "", ""⟩,
   ⟨"MRI", [], "Beta", "", ""⟩,
   ⟨"MRI", [], "Gamma", "", ""⟩,
   ⟨"MRI", [], "Delta", "", ""⟩,
   ⟨"MRI", [], "Epsilon", "", ""⟩]

-- ---------------------------------------------------------------------------
-- Mechanism-of-Injury (MOI) builder: HOIPage._regen_moi_now and its wiring
-- ---------------------------------------------------------------------------

/-- Python str.startswith / List prefix test on strings. -/
def pyStartsWith (s pre : String) : Bool :=
  pre.data.isPrefixOf s.data

/-- The dict returned by the optional patient provider callback
(`patient_context() -> {first, sex, doi}`). -/
structure PatientProvider where
  first : String
  sex : String
  doi : String
deriving Repr, DecidableEq

/-- One structured imaging block as returned by ImagingBlock.get_selected():
a list of selected imaging types and a list of selected body parts. -/
structure ImagingBlockSel where
  types : List String
  parts : List String
deriving Repr, DecidableEq

/-- The structured snapshot read by `_regen_moi_now`: every variable the MOI
builder consumes, plus the two optional provider callbacks (none = provider
not installed; the code then falls back to empty strings / empty list). -/
structure MOIFields where
  provider : Option PatientProvider
  regions : Option (List String)
  sexVar : String
  doiVar : String
  injuryType : String
  aaMoving : String
  aaOtherPart : String
  aaPatientSide : String
  aaResembles : String
  sfCircumstance : String
  sfLanding : String
  dbLocation : String
  dbSeverity : String
  course : String
  courseNotes : String
  treatmentReceived : String
  careSetting : String
  facilityName : String
  priorCare : String
  medsPrescribed : String
  medsSelected : List String
  medsNotes : String
  imagingDone : String
  imagingBlocks : List ImagingBlockSel
  imagingSelectedLegacy : List String
  imagingBodypart : String
  diagnosticsNotes : String
deriving Repr, DecidableEq

/-- The resolved patient context of HOIPage._patient_ctx: provider values,
with the page's own sex/doi variables taking precedence when set.  (The
Python also accepts a "first_name" dict key as a fallback spelling of
"first"; the provider record models the resolved value.) -/
structure PatientCtx where
  first : String
  sex : String
  doi : String
deriving Repr, DecidableEq

/-- HOIPage._patient_ctx. -/
def patientCtx (f : MOIFields) : PatientCtx :=
  let base : PatientCtx :=
    match f.provider with
    | none => ⟨"", "", ""⟩
    | some d => ⟨pyStrip d.first, pyStrip d.sex, pyStrip d.doi⟩
  let sex := if pyStrip f.sexVar != "" && pyStrip f.sexVar != "(unknown)" then pyStrip f.sexVar else base.sex
  let doi := if pyStrip f.doiVar != "" then pyStrip f.doiVar else base.doi
  ⟨base.first, sex, doi⟩

/-- Pronoun set for HOIPage._pronouns. -/
structure Pronouns where
  subj : String
  obj : String
  poss : String
deriving Repr, DecidableEq

/-- HOIPage._pronouns: prefix match on the stripped, lower-cased sex string. -/
def pronounsFor (sex : String) : Pronouns :=
  let s := pyLower (pyStrip sex)
  if pyStartsWith s "m" then ⟨"he", "him", "his"⟩
  else if pyStartsWith s "f" then ⟨"she", "her", "her"⟩
  else ⟨"they", "them", "their"⟩

/-- HOIPage._reports. -/
def reportsVerb (first : String) : String :=
  if first != "" then first ++ " reports" else "The patient reports"

/-- HOIPage._states. -/
def statesVerb (first : String) : String :=
  if first != "" then first ++ " states" else "The patient states"

/-- HOIPage._injured_regions_from_provider: deduplicated provider regions,
empty when no provider is installed. -/
def injuredRegions (f : MOIFields) : List String :=
  match f.regions with
  | none => []
  | some rs => dedupePreserveOrder rs

/-- HOIPage._imaging_sentence_from_blocks: one sentence covering all
structured imaging blocks, with the legacy single-selection fallback. -/
def imagingSentenceFromBlocks (f : MOIFields) : String :=
  if f.imagingDone != "Imaging performed" then ""
  else
    let blockPhrases := f.imagingBlocks.filterMap (fun blk =>
      let types := (blk.types.filter (fun x => pyStrip x != "")).map normalizeImgType
      let parts := (blk.parts.filter (fun p => pyStrip p != "" && p != "(none)")).map
        (fun p => pyLower (pyStrip p))
      if types.isEmpty && parts.isEmpty then none
      else
        let typeTxt := if types.isEmpty then "imaging" else humanJoin types
        if !parts.isEmpty then some (typeTxt ++ " of the " ++ humanJoin parts)
        else some typeTxt)
    let phrases :=
      if blockPhrases.isEmpty then
        let legacyTypes := (f.imagingSelectedLegacy.filter (fun x => pyStrip x != "")).map normalizeImgType
        let legacyBp := pyStrip f.imagingBodypart
        if !legacyTypes.isEmpty && legacyBp != "" && legacyBp != "(none)" then
          [humanJoin legacyTypes ++ " of the " ++ pyLower legacyBp]
        else if !legacyTypes.isEmpty then [humanJoin legacyTypes]
        else if legacyBp != "" && legacyBp != "(none)" then ["imaging of the " ++ pyLower legacyBp]
        else ["imaging studies"]
      else blockPhrases
    let phrases := phrases.filter (fun p => pyStrip p != "")
    if phrases.isEmpty then ""
    else ensurePeriod ("Diagnostic imaging was performed, including " ++ humanJoin phrases)

/-- Paragraph 1 of `_regen_moi_now` (accident/mechanism), branching on the
injury category.  (The local `states` variable of the Python is unused in
these branches: the "The patient states" lead-ins are literal text.) -/
def moiParagraph1 (f : MOIFields) : String :=
  let ctx := patientCtx f
  let pro := pronounsFor ctx.sex
  let doi := if pyStrip ctx.doi == "" then "____/____/________" else pyStrip ctx.doi
  let reports := reportsVerb ctx.first
  let injury := pyStrip f.injuryType
  let typedCourse := pyStrip f.courseNotes
  if injury == "Auto Accident" then
    let p1parts := [reports ++ " " ++ pro.subj ++ " was involved in a "
      ++ pyLower (pyStrip f.aaMoving) ++ " on " ++ doi
      ++ ". The patient states the " ++ pyLower (pyStrip f.aaOtherPart)
      ++ " portion of the other vehicle struck " ++ pro.poss ++ " vehicle on the "
      ++ pyLower (pyStrip f.aaPatientSide) ++ ", and the mechanism of injury "
      ++ "most closely resembles a " ++ pyLower (pyStrip f.aaResembles) ++ " collision."]
    let p1parts := if typedCourse != "" then p1parts ++ [ensurePeriod typedCourse] else p1parts
    String.intercalate (" ") p1parts
  else if injury == "Slip and Fall" then
    let parts := [reports ++ " " ++ pro.subj ++ " sustained a slip and fall injury on " ++ doi ++ "."]
    let parts := if f.sfCircumstance != "(none)" then
        parts ++ ["The patient states the incident involved " ++ pyLower f.sfCircumstance]
      else parts
    let parts := if f.sfLanding != "(none)" then
        parts ++ ["and that " ++ pro.subj ++ " landed primarily on the " ++ pyLower f.sfLanding ++ "."]
      else parts
    let parts := if typedCourse != "" then parts ++ [ensurePeriod typedCourse] else parts
    String.intercalate (" ") parts
  else if injury == "Dog Bite" then
    let parts := [reports ++ " " ++ pro.subj ++ " sustained injuries due to a dog bite on " ++ doi ++ "."]
    let parts := if f.dbLocation != "(none)" then
        parts ++ ["The patient states the bite involved the " ++ pyLower f.dbLocation]
      else parts
    let parts := if f.dbSeverity != "(none)" then
        parts ++ ["and describes the bite as a " ++ pyLower f.dbSeverity ++ " type of wound."]
      else parts
    let parts := if typedCourse != "" then parts ++ [ensurePeriod typedCourse] else parts
    String.intercalate (" ") parts
  else
    let parts := [reports ++ " sustained the following mechanism of injury on " ++ doi ++ "."]
    let parts := if typedCourse != "" then parts ++ [ensurePeriod typedCourse] else parts
    String.intercalate (" ") parts

/-- Paragraph 2 of `_regen_moi_now` (medical/treatment). -/
def moiParagraph2 (f : MOIFields) : String :=
  let medicalParts : List String :=
    if f.treatmentReceived == "Did receive" then
      let setting := pyStrip f.careSetting
      let facility := pyStrip f.facilityName
      let p :=
        if setting != "" && setting != "(none)" then
          ["The patient sought medical care at a " ++ pyLower setting
            ++ (if facility != "" then ", specifically at " ++ facility ++ "." else ".")]
        else []
      let typedPrior := pyStrip f.priorCare
      if typedPrior != "" then p ++ [ensurePeriod typedPrior] else p
    else ["The patient did not receive medical treatment immediately following the incident."]
  let medicalParts :=
    if f.medsPrescribed == "Was prescribed" && !f.medsSelected.isEmpty then
      let meds := String.intercalate (", ")
        ((f.medsSelected.filter (fun x => pyStrip x != "")).map (fun x => pyLower (pyStrip x)))
      if meds != "" then
        medicalParts ++ ["The patient was prescribed medications including " ++ meds ++ "."]
      else medicalParts
    else medicalParts
  let typedMeds := pyStrip f.medsNotes
  let medicalParts :=
    if typedMeds != "" && f.medsPrescribed == "Was prescribed" then
      medicalParts ++ [ensurePeriod typedMeds]
    else medicalParts
  let imgSentence := pyStrip (imagingSentenceFromBlocks f)
  let medicalParts := if imgSentence != "" then medicalParts ++ [imgSentence] else medicalParts
  let typedDiag := pyStrip f.diagnosticsNotes
  let medicalParts := if typedDiag != "" then medicalParts ++ [ensurePeriod typedDiag] else medicalParts
  String.intercalate (" ") (medicalParts.filter (fun x => pyStrip x != ""))

/-- Paragraph 3 of `_regen_moi_now` (course and regions). -/
def moiParagraph3 (f : MOIFields) : String :=
  let course := pyLower (pyStrip f.course)
  let regions := injuredRegions f
  let p3parts : List String :=
    (if course != "" then
      ["Since the date of injury, the patient reports that the condition has been " ++ course ++ "."]
    else [])
    ++ (if !regions.isEmpty then
      ["The patient reports injuries to the following area or body regions: "
        ++ joinWithAnd regions ++ "."]
    else [])
  String.intercalate (" ") (p3parts.filter (fun x => pyStrip x != ""))

/-- The text `_regen_moi_now` stores: empty when the injury type is unset or
"(none)", otherwise the three paragraphs and the AUTO sentinel joined with
blank lines (empty paragraphs omitted). -/
def moiTextFor (f : MOIFields) : String :=
  let injury := pyStrip f.injuryType
  if injury == "" || injury == "(none)" then ""
  else
    String.intercalate ("\n\n")
      (([moiParagraph1 f, moiParagraph2 f, moiParagraph3 f, AUTO_MOI_TAG]).filter
        (fun p => pyStrip p != ""))

-- ---------------------------------------------------------------------------
-- MOI auto/manual wiring: _on_struct_changed, _bind_text_to_var, checkbox
-- ---------------------------------------------------------------------------

/-- Observable MOI section state: the structured snapshot, the auto flag
(auto_moi_var), the narrative text (moi_var / the MOI text widget), and the
loading guard. -/
structure MOIState where
  fields : MOIFields
  auto : Bool
  text : String
  loading : Bool
deriving Repr, DecidableEq

/-- HOIPage._regen_moi_now as a state update: no-op while loading or while
the auto flag is off; otherwise store the generated text. -/
def regenMoiNow (s : MOIState) : MOIState :=
  if s.loading then s
  else if !s.auto then s
  else { s with text := moiTextFor s.fields }

/-- HOIPage._on_struct_changed, the write-trace shared by every driving
variable (auto_moi_var included).  When the flag is off, the handler writes
auto_moi_var := True; that write re-fires this same trace synchronously, and
the nested call (now seeing auto = true) regenerates before the outer call
regenerates again. -/
def onStructChanged (s : MOIState) : MOIState :=
  if s.loading then s
  else if !s.auto then regenMoiNow (regenMoiNow { s with auto := true })
  else regenMoiNow s

/-- A user edit of one driving structured field: the variable write fires the
`_on_struct_changed` trace. -/
def changeMoiField (s : MOIState) (f : MOIFields) : MOIState :=
  onStructChanged { s with fields := f }

/-- Typing into the MOI text box (`flush_and_changed` in _bind_text_to_var
with is_moi = true, outside an internal set): the widget content is flushed
into moi_var, and when the auto flag is on it is written to False — a write
that fires the `_on_struct_changed` trace on auto_moi_var. -/
def typeIntoMoi (s : MOIState) (typed : String) : MOIState :=
  let s1 := { s with text := typed }
  if s1.auto then onStructChanged { s1 with auto := false } else s1

/-- Clicking the "Auto-generate MOI" Checkbutton: the widget writes the
negated flag value (firing the `_on_struct_changed` trace) and then runs its
command, `_regen_moi_now`. -/
def toggleMoiCheckbox (s : MOIState) : MOIState :=
  regenMoiNow (onStructChanged { s with auto := !s.auto })

-- ---------------------------------------------------------------------------
-- Concrete MOI inputs for the claims
-- ---------------------------------------------------------------------------

/-- Snapshot of claim C9's end-to-end Auto Accident scenario. -/
def c9Fields : MOIFields where
  provider := some ⟨"John", "", ""⟩
  regions := none
  sexVar := "Male"
  doiVar := "01/15/2024"
  injuryType := "Auto Accident"
  aaMoving := "Moving Vehicle Accident"
  aaOtherPart := "rear"
  aaPatientSide := "driver side"
  aaResembles := "rear-end"
  sfCircumstance := "(none)"
  sfLanding := "(none)"
  dbLocation := "(none)"
  dbSeverity := "(none)"
  course := ""
  courseNotes := ""
  treatmentReceived := ""
  careSetting := ""
  facilityName := ""
  priorCare := ""
  medsPrescribed := ""
  medsSelected := []
  medsNotes := ""
  imagingDone := ""
  imagingBlocks := []
  imagingSelectedLegacy := []
  imagingBodypart := ""
  diagnosticsNotes := ""

/-- A small generic-injury snapshot (for claims C1 and C2). -/
def moiFieldsA : MOIFields where
  provider := none
  regions := none
  sexVar := ""
  doiVar := ""
  injuryType := "Work Injury"
  aaMoving := ""
  aaOtherPart := ""
  aaPatientSide := ""
  aaResembles := ""
  sfCircumstance := "(none)"
  sfLanding := "(none)"
  dbLocation := "(none)"
  dbSeverity := "(none)"
  course := ""
  courseNotes := ""
  treatmentReceived := ""
  careSetting := ""
  facilityName := ""
  priorCare := ""
  medsPrescribed := ""
  medsSelected := []
  medsNotes := ""
  imagingDone := ""
  imagingBlocks := []
  imagingSelectedLegacy := []
  imagingBodypart := ""
  diagnosticsNotes := ""

/-- moiFieldsA with a changed driving field (course notes typed). -/
def moiFieldsB : MOIFields :=
  { moiFieldsA with courseNotes := "Symptoms have worsened since." }

/-- MOI state for claim C2's scenario: auto on, text freshly generated. -/
def moiStateA : MOIState where
  fields := moiFieldsA
  auto := true
  text := moiTextFor moiFieldsA
  loading := false

end HOI

-- ---------------------------------------------------------------------------
-- Plan-of-Care narrative builder: plan_page.py
-- ---------------------------------------------------------------------------

namespace PlanPage

/-- plan_page.py: AUTO_PLAN_TAG = "[AUTO:PLAN]". -/
def AUTO_PLAN_TAG : String := "[AUTO:PLAN]"

/-- Structured snapshot read by PlanPage._regen_plan_now: the checked labels
of the three checkbox groups (in checklist order), the schedule values with
their "(other)" overrides, the notes text, the provider first name, and the
diagnosis-label list from the dx provider.  (`notes` and `providerFirst` are
read by the Python but unused by the sentence assembly.) -/
structure PlanFields where
  care : List String
  regions : List String
  goals : List String
  freqVar : String
  freqOther : String
  durVar : String
  durOther : String
  reevalVar : String
  reevalOther : String
  notes : String
  providerFirst : String
  dxList : List String
deriving Repr, DecidableEq

/-- Lower-case the first character of a string (Python s[:1].lower() + s[1:]). -/
def lowerFirstChar (s : String) : String :=
  match s.data with
  | [] => s
  | c :: cs => ⟨ChiroEMR.pyCharLower c :: cs⟩

/-- PlanPage._join_human: strip items, drop blanks, optionally lower-case the
first character of the first item, then join as "", sole item, "A and B" or
an Oxford-comma list. -/
def joinHuman (lowerFirst : Bool) (items : List String) : String :=
  let cleaned := items.filterMap (fun i => let t := pyStrip i; if t == "" then none else some t)
  let cleaned :=
    if lowerFirst then
      match cleaned with
      | [] => []
      | a :: rest => lowerFirstChar a :: rest
    else cleaned
  match cleaned with
  | [] => ""
  | [a] => a
  | [a, b] => a ++ " and " ++ b
  | a :: rest => String.intercalate (", ") (a :: rest.dropLast) ++ ", and " ++ rest.getLastD ""

/-- PlanPage._freq_value. -/
def freqValue (f : PlanFields) : String :=
  if pyStrip f.freqVar == "(other)" then pyStrip f.freqOther else pyStrip f.freqVar

/-- PlanPage._duration_value. -/
def durationValue (f : PlanFields) : String :=
  if pyStrip f.durVar == "(other)" then pyStrip f.durOther else pyStrip f.durVar

/-- PlanPage._reeval_value. -/
def reevalValue (f : PlanFields) : String :=
  if pyStrip f.reevalVar == "(other)" then pyStrip f.reevalOther else pyStrip f.reevalVar

/-- The text PlanPage._regen_plan_now assembles: leading AUTO tag, then up to
six sentences, joined with spaces (blank parts dropped). -/
def planGenText (f : PlanFields) : String :=
  let freq := freqValue f
  let dur := durationValue f
  let reeval := reevalValue f
  let dxList := HOI.dedupePreserveOrder f.dxList
  let parts : List String :=
    [AUTO_PLAN_TAG]
    ++ [if !f.care.isEmpty && !f.regions.isEmpty then
          "The patient will receive " ++ joinHuman false f.care
            ++ " directed to " ++ joinHuman false f.regions ++ "."
        else if !f.care.isEmpty then
          "The patient will receive " ++ joinHuman false f.care ++ "."
        else if !f.regions.isEmpty then
          "Care will be directed to " ++ joinHuman false f.regions ++ "."
        else "A plan of care is recommended as clinically indicated."]
    ++ (if freq != "" && dur != "" then
          ["Recommended frequency is " ++ freq ++ " visit(s) per week for " ++ dur ++ " week(s)."]
        else if freq != "" then
          ["Recommended frequency is " ++ freq ++ " visit(s) per week."]
        else if dur != "" then
          ["Recommended duration is " ++ dur ++ " week(s)."]
        else [])
    ++ [if !f.goals.isEmpty then
          "Treatment goals include " ++ joinHuman true f.goals ++ "."
        else "Treatment goals include improving function and reducing symptoms."]
    ++ (if !dxList.isEmpty then
          ["This plan is based on clinical findings consistent with: " ++ joinHuman false dxList ++ "."]
        else [])
    ++ (if reeval != "" then
          ["The patient will be re-evaluated at " ++ reeval
            ++ " to assess response and modify care as indicated."]
        else [])
    ++ ["The patient verbalizes understanding and agrees with the plan of care."]
  String.intercalate (" ") (parts.filter (fun p => pyStrip p != ""))

/-- Observable Plan section state: snapshot, auto flag (auto_plan_var), its
remembered last value (_last_auto_plan), the narrative text widget content,
and the loading guard. -/
structure PlanState where
  fields : PlanFields
  auto : Bool
  lastAuto : Bool
  text : String
  loading : Bool
deriving Repr, DecidableEq

/-- PlanPage._regen_plan_now as a state update: no-op while loading or while
the auto flag is off; otherwise store the generated narrative. -/
def regenPlanNow (s : PlanState) : PlanState :=
  if s.loading then s
  else if !s.auto then s
  else { s with text := planGenText s.fields }

/-- The `_auto_toggled` trace on auto_plan_var: act only on a true change;
turning on regenerates immediately; turning off clears the text ONLY when its
stripped content starts with the AUTO tag; then remember the new value. -/
def planAutoToggled (s : PlanState) : PlanState :=
  if s.loading then s
  else if s.auto == s.lastAuto then s
  else
    let s2 :=
      if s.auto then regenPlanNow s
      else if HOI.pyStartsWith (pyStrip s.text) AUTO_PLAN_TAG then { s with text := "" } else s
    { s2 with lastAuto := s.auto }

/-- Writing the auto checkbox (auto_plan_var := b) fires `_auto_toggled`. -/
def setPlanAuto (s : PlanState) (b : Bool) : PlanState :=
  planAutoToggled { s with auto := b }

/-- Typing into the Plan narrative box: `_on_plan_text_modified` only resets
the widget's modified flag and notifies; the auto flag is untouched. -/
def typeIntoPlan (s : PlanState) (typed : String) : PlanState :=
  { s with text := typed }

/-- A change of one general driving field (`_general_changed`): regenerate
only when the auto flag is on. -/
def changePlanField (s : PlanState) (f : PlanFields) : PlanState :=
  if s.loading then s
  else if s.auto then regenPlanNow { s with fields := f }
  else { s with fields := f }

/-- A small concrete Plan snapshot (claims C1 and C7). -/
def planFieldsA : PlanFields where
  care := ["Chiropractic manipulation"]
  regions := ["Cervical", "Lumbar"]
  goals := ["Decrease pain"]
  freqVar := "3"
  freqOther := ""
  durVar := "4"
  durOther := ""
  reevalVar := "4 weeks"
  reevalOther := ""
  notes := ""
  providerFirst := ""
  dxList := []

/-- Plan state for claim C7's scenario: auto on, text freshly generated. -/
def planStateA : PlanState where
  fields := planFieldsA
  auto := true
  lastAuto := true
  text := planGenText planFieldsA
  loading := false

end PlanPage

-- ---------------------------------------------------------------------------
-- Therapy-Only subjective mode: subjectives.py
-- ---------------------------------------------------------------------------

namespace Subjectives

/-- subjectives.py THERAPY_BODY_PARTS, the fixed checklist order. -/
def THERAPY_BODY_PARTS : List String :=
  ["Neck", "Upper Back", "Mid-Back", "Low Back", "Pelvic Area",
   "Left Hip", "Right Hip", "Left Buttock", "Right Buttock",
   "Left Thigh", "Right Thigh", "Left Knee", "Right Knee",
   "Left Ankle", "Right Ankle", "Left Foot", "Right Foot",
   "Left Toes", "Right Toes",
   "Left Shoulder", "Right Shoulder",
   "Left Arm", "Right Arm",
   "Left Elbow", "Right Elbow",
   "Left Forearm", "Right Forearm",
   "Left Wrist", "Right Wrist",
   "Left Hand", "Right Hand",
   "Left Fingers", "Right Fingers"]

/-- subjectives.py join_with_and (module level): drops falsy items first. -/
def joinWithAndFiltered (items : List String) : String :=
  let items := items.filter (fun x => x != "")
  match items with
  | [] => ""
  | [a] => a
  | [a, b] => a ++ " and " ++ b
  | a :: rest => String.intercalate (", ") (a :: rest.dropLast) ++ ", and " ++ rest.getLastD ""

/-- Observable Therapy-Only state: the set of checked checkbox names, the
running `_therapy_order` list, the stored `_therapy_main`, and the
`_therapy_loading` guard. -/
structure TherapyState where
  checked : List String
  order : List String
  main : Option String
  loading : Bool
deriving Repr, DecidableEq

/-- Writing one therapy BooleanVar (a user checking or unchecking a box) and
its `_on_therapy_var_change` trace: append to the order list on a new check,
remove on an uncheck, and recompute `_therapy_main` as the order list's first
element (None when the list went empty). -/
def setTherapyVar (s : TherapyState) (name : String) (v : Bool) : TherapyState :=
  let checked :=
    if v then (if s.checked.contains name then s.checked else s.checked ++ [name])
    else s.checked.filter (fun n => n != name)
  let s := { s with checked := checked }
  if s.loading then s
  else
    let order :=
      if v then (if s.order.contains name then s.order else s.order ++ [name])
      else (if s.order.contains name then s.order.erase name else s.order)
    let main := order.head?
    { s with order := order, main := main }

/-- subjectives.py build_therapy_paragraph: the narrative paragraph and the
state it leaves behind.  The selected list is taken in FIXED checklist order,
and `_therapy_main` is recomputed as its first element, ignoring the stored
order-list value. -/
def buildTherapyParagraph (s : TherapyState) : String × TherapyState :=
  let selected := THERAPY_BODY_PARTS.filter (fun n => s.checked.contains n)
  match selected with
  | [] => ("", { s with main := none })
  | main :: others =>
    let s := { s with main := some main }
    let s1 := "The patient states that today the worst symptoms are located in the following area: "
      ++ main ++ " region."
    if others.isEmpty then (s1, s)
    else (s1 ++ " " ++ "The patient also feels symptoms in the "
      ++ joinWithAndFiltered others ++ ".", s)

/-- Fresh Therapy-Only state. -/
def therapyStart : TherapyState := ⟨[], [], none, false⟩

/-- State after checking "Upper Back" first and "Neck" second (claim C3's
failing input; "Neck" precedes "Upper Back" in the fixed checklist). -/
def therapyAfter : TherapyState :=
  setTherapyVar (setTherapyVar therapyStart ("Upper Back") true) ("Neck") true

end Subjectives

-- ---------------------------------------------------------------------------
-- Sentinel stripping: diagnosis_page.py, pdf_export.py, HOIpdf.py
-- ---------------------------------------------------------------------------

/-- Case-insensitive prefix match on character lists, returning the rest of
the input after the pattern. -/
def ciPrefixRest : List Char → List Char → Option (List Char)
  | [], s => some s
  | _ :: _, [] => none
  | p :: ps, c :: cs => if pyCharLower p == pyCharLower c then ciPrefixRest ps cs else none

namespace Strip

/-- Python str.splitlines over the line boundaries occurring in this program
(newline, carriage return, CRLF); no trailing empty line is produced. -/
def pySplitlinesAux (acc : List Char) : List Char → List (List Char)
  | [] => if acc.isEmpty then [] else [acc.reverse]
  | '\r' :: '\n' :: rest => acc.reverse :: pySplitlinesAux [] rest
  | '\n' :: rest => acc.reverse :: pySplitlinesAux [] rest
  | '\r' :: rest => acc.reverse :: pySplitlinesAux [] rest
  | c :: rest => pySplitlinesAux (c :: acc) rest

/-- Python str.splitlines on strings. -/
def pySplitlines (s : String) : List String :=
  (pySplitlinesAux [] s.data).map (fun l => ⟨l⟩)

/-- diagnosis_page._strip_auto_tag: drop the last line when its strip equals
"[AUTO:DX]" exactly (case-SENSITIVE), then join and strip the whole result. -/
def stripAutoTagDxPage (text : String) : String :=
  let lines := pySplitlines text
  let lines :=
    if !lines.isEmpty && pyStrip (lines.getLastD "") == "[AUTO:DX]" then lines.dropLast
    else lines
  pyStrip (String.intercalate ("\n") lines)

/-- pdf_export._strip_dx_auto_tag: the same algorithm with DX_AUTO_TAG =
"[AUTO:DX]". -/
def stripDxAutoTagExport (text : String) : String :=
  let lines := pySplitlines text
  let lines :=
    if !lines.isEmpty && pyStrip (lines.getLastD "") == "[AUTO:DX]" then lines.dropLast
    else lines
  pyStrip (String.intercalate ("\n") lines)

/-- One attempted match of the pattern backslash-s* [AUTO:MOI] backslash-s*
(case-insensitive) at the current position: greedy leading whitespace, the
tag, greedy trailing whitespace; returns the rest after the match.  (The
tag's first character is not whitespace, so the greedy whitespace run never
needs backtracking.) -/
def tagMatchRest (tag : List Char) (s : List Char) : Option (List Char) :=
  match ciPrefixRest tag (s.dropWhile isPySpace) with
  | some s2 => some (s2.dropWhile isPySpace)
  | none => none

/-- Left-to-right scan of Python re.sub with replacement "": at each position
try the match and skip it, otherwise emit the character and move on.  Fuel is
the input length, which bounds the number of scan steps. -/
def subTagCIAux (tag : List Char) : Nat → List Char → List Char
  | 0, s => s
  | _ + 1, [] => []
  | fuel + 1, c :: cs =>
    match tagMatchRest tag (c :: cs) with
    | some rest => subTagCIAux tag fuel rest
    | none => c :: subTagCIAux tag fuel cs

/-- HOIpdf._strip_auto_tag: remove every case-insensitive occurrence of
"[AUTO:MOI]" together with adjacent whitespace, then strip the result. -/
def stripAutoTagHOIpdf (text : String) : String :=
  if text == "" then ""
  else pyStrip ⟨subTagCIAux (("[AUTO:MOI]").data) text.data.length text.data⟩

/-- The stripping rule exactly as the spec and claim C4 word it: remove a
trailing line that equals the sentinel tag (matched case-insensitively,
trimming surrounding whitespace); any other string is left unchanged. -/
def specStripTag (tag text : String) : String :=
  let lines := pySplitlines text
  if !lines.isEmpty && pyLower (pyStrip (lines.getLastD "")) == pyLower tag then
    pyStrip (String.intercalate ("\n") lines.dropLast)
  else text

end Strip

-- ---------------------------------------------------------------------------
-- Pain-descriptor narrative: utils.build_sentence and ui_blocks.update_narrative
-- ---------------------------------------------------------------------------

namespace UiBlocks

/-- config.REGION_LABELS. -/
def REGION_LABELS : List (String × String) :=
  [("CS", "Cervical Spine"), ("TS", "Thoracic Spine"), ("LS", "Lumbar Spine"),
   ("R_SHOULDER", "Right Shoulder"), ("L_SHOULDER", "Left Shoulder"),
   ("BL_SHOULDER", "Bilateral Shoulders"),
   ("R_ELBOW", "Right Elbow"), ("L_ELBOW", "Left Elbow"), ("BL_ELBOW", "Bilateral Elbows"),
   ("R_WRIST", "Right Wrist"), ("L_WRIST", "Left Wrist"), ("BL_WRIST", "Bilateral Wrists"),
   ("R_HIP", "Right Hip"), ("L_HIP", "Left Hip"), ("BL_HIP", "Bilateral Hips"),
   ("R_KNEE", "Right Knee"), ("L_KNEE", "Left Knee"), ("BL_KNEE", "Bilateral Knees"),
   ("R_ANKLE", "Right Ankle"), ("L_ANKLE", "Left Ankle"), ("BL_ANKLE", "Bilateral Ankles")]

/-- REGION_LABELS.get(code, "") of the Python. -/
def regionLabelFor (code : String) : String :=
  ((REGION_LABELS.find? (fun p => p.1 == code)).map Prod.snd).getD ""

/-- Inner helper _as_pain_phrase of utils.build_sentence. -/
def asPainPhrase (s : String) : String :=
  let t := pyLower (pyStrip s)
  if t == "" then ""
  else if containsSub t ("pain") then t
  else t ++ " pain"

/-- utils.build_sentence: lead sentence, descriptor sentence, optional
radiating-symptom sentence, space-joined. -/
def buildSentence (regionLabel desc1 desc2 radicSymptom radicLocation : String) : String :=
  let region := pyLower (pyStrip regionLabel)
  let lead := "The patient reports symptoms in the " ++ region ++ "."
  let raw := ([desc1, desc2].filter (fun d => d != "" && d != "(none)")).map pyStrip
  let descriptors := (raw.map asPainPhrase).filter (fun d => d != "")
  let painSentence :=
    match descriptors with
    | [] => "The patient describes the pain."
    | [d0] => "The patient describes those symptoms as " ++ d0 ++ "."
    | d0 :: d1 :: _ =>
      "The patient describes those symptoms as " ++ d0 ++ " along with " ++ d1 ++ "."
  let radicSentence :=
    if radicSymptom != "" && radicSymptom != "None" then
      if radicLocation != "" && radicLocation != "(select)" then
        "The patient complains of " ++ pyLower radicSymptom ++ " into the "
          ++ pyLower radicLocation ++ "."
      else "The patient complains of " ++ pyLower radicSymptom ++ "."
    else ""
  String.intercalate (" ") ([lead, painSentence, radicSentence].filter (fun x => x != ""))

/-- Observable DescriptorBlock state read by update_narrative. -/
structure DescriptorState where
  region : String
  desc1 : String
  desc2 : String
  radicSymptom : String
  radicLocation : String
  muscles : List String
  painScale : String
  narrative : String
  loadingFromFile : Bool
deriving Repr, DecidableEq

/-- The deterministic tenderness sentence of update_narrative. -/
def tendernessSentence (selected : List String) : String :=
  match selected with
  | [] => ""
  | [a] => "The patient indicates or points to the " ++ a ++ " as the area of tenderness."
  | [a, b] => "The patient indicates or points to the " ++ a ++ " and the " ++ b
      ++ " as the areas of tenderness."
  | l => "The patient indicates or points to the " ++ String.intercalate (", ") l.dropLast
      ++ ", and the " ++ l.getLastD "" ++ " as the areas of tenderness."

/-- The pain-scale sentence of update_narrative (empty scale falls back to
"None" through Python or-truthiness). -/
def painScaleLine (painScale : String) : String :=
  let scale := pyStrip (if painScale == "" then "None" else painScale)
  "The patient states the overall discomfort in this area is " ++ pyLower scale ++ "."

/-- The fresh auto-generated narrative assembled by update_narrative. -/
def descriptorAutoSentence (s : DescriptorState) : String :=
  let base := buildSentence (regionLabelFor s.region) s.desc1 s.desc2 s.radicSymptom s.radicLocation
  let tender := tendernessSentence s.muscles
  let parts := [base] ++ (if tender != "" then [tender] else []) ++ [painScaleLine s.painScale]
  String.intercalate ("\n\n") (parts.filter (fun p => pyStrip p != ""))

/-- Word characters of the regex boundary in Python (ASCII fragment). -/
def isWordChar (c : Char) : Bool :=
  c.isAlphanum || c == '_'

/-- Scan for a case-insensitive occurrence of the pattern delimited by word
boundaries, as re.search of a backslash-b literal backslash-b pattern with
IGNORECASE (all three patterns begin and end with word characters). -/
def searchBoundedCIAux (pat : List Char) (prev : Option Char) : List Char → Bool
  | [] => false
  | c :: cs =>
    (match ciPrefixRest pat (c :: cs) with
     | some rest =>
       (match prev with | none => true | some p => !isWordChar p)
         && (match rest with | [] => true | r :: _ => !isWordChar r)
     | none => false)
    || searchBoundedCIAux pat (some c) cs

/-- re.search of the word-bounded case-insensitive pattern on strings. -/
def searchBoundedCI (pat hay : String) : Bool :=
  searchBoundedCIAux pat.data none hay.data

/-- The overwrite guard of update_narrative: blank, or one of the three
word-bounded lead-in patterns found case-insensitively. -/
def looksAuto (current : String) : Bool :=
  current == ""
    || searchBoundedCI ("The patient reports symptoms in the") current
    || searchBoundedCI ("Tenderness is localized to the") current
    || searchBoundedCI ("overall discomfort in this area") current

/-- Claim-side guard for C8, following the claim's words: the current text is
empty or CONTAINS (case-insensitively, as a plain substring) one of the three
lead-in phrases. -/
def claimLooksAuto (current : String) : Bool :=
  current == ""
    || listContainsSub (pyLower ("The patient reports symptoms in the")).data (pyLower current).data
    || listContainsSub (pyLower ("Tenderness is localized to the")).data (pyLower current).data
    || listContainsSub (pyLower ("overall discomfort in this area")).data (pyLower current).data

/-- ui_blocks.DescriptorBlock.update_narrative as a state update (the
region-label variable write and the bold-tag presentation are omitted: they
do not affect the narrative text). -/
def updateNarrative (overwriteIfAuto : Bool) (s : DescriptorState) : DescriptorState :=
  if s.loadingFromFile then s
  else
    let label := regionLabelFor s.region
    if s.region == "(none)" || label == "" then
      if overwriteIfAuto then { s with narrative := "" } else s
    else
      let fresh := descriptorAutoSentence s
      let current := pyStrip s.narrative
      if looksAuto current then { s with narrative := fresh } else s

/-- Concrete C8 state with no region and a user-edited narrative. -/
def descStateNone : DescriptorState where
  region := "(none)"
  desc1 := "(none)"
  desc2 := "(none)"
  radicSymptom := "None"
  radicLocation := "(select)"
  muscles := []
  painScale := "None"
  narrative := "my personal note"
  loadingFromFile := false

/-- Concrete C8 state with a valid region and a narrative that contains the
lead-in phrase as a plain substring but not at a word boundary. -/
def descStateCS : DescriptorState :=
  { descStateNone with region := "CS", narrative := "ZThe patient reports symptoms in thewild" }

/-- Concrete C8 state with a valid region and an empty narrative. -/
def descStateFresh : DescriptorState :=
  { descStateNone with region := "CS", narrative := "" }

end UiBlocks

-- ---------------------------------------------------------------------------
-- Theorems
-- ---------------------------------------------------------------------------

namespace HOI

/-- Every element produced by the uniq-dates loop comes from its input. -/
theorem uniqDatesAux_sub {u : String} :
    ∀ (ds seen : List String), u ∈ uniqDatesAux seen ds → u ∈ ds := by
  intro ds
  induction ds with
  | nil => intro seen h; simp [uniqDatesAux] at h
  | cons d ds ih =>
    intro seen h
    rw [uniqDatesAux] at h
    by_cases hc : seen.contains (pyLower d) = true
    · rw [if_pos hc] at h
      exact List.mem_cons_of_mem _ (ih seen h)
    · rw [if_neg hc] at h
      rcases List.mem_cons.mp h with h1 | h1
      · exact h1 ▸ List.mem_cons_self _ _
      · exact List.mem_cons_of_mem _ (ih _ h1)

/-- The lower-casing of every output of the uniq-dates loop avoids the seen
accumulator. -/
theorem uniqDatesAux_seen_free {u : String} :
    ∀ (ds seen : List String), u ∈ uniqDatesAux seen ds →
      seen.contains (pyLower u) = false := by
  intro ds
  induction ds with
  | nil => intro seen h; simp [uniqDatesAux] at h
  | cons d ds ih =>
    intro seen h
    rw [uniqDatesAux] at h
    by_cases hc : seen.contains (pyLower d) = true
    · rw [if_pos hc] at h
      exact ih seen h
    · rw [if_neg hc] at h
      rcases List.mem_cons.mp h with h1 | h1
      · subst h1; simpa using hc
      · have h2 := ih _ h1
        simp only [List.contains_cons, Bool.or_eq_false_iff] at h2
        exact h2.2

/-- Every input date whose lower-casing is unseen is represented (up to
lower-casing) in the loop's output. -/
theorem uniqDatesAux_lower_mem {x : String} :
    ∀ (ds seen : List String), x ∈ ds → seen.contains (pyLower x) = false →
      ∃ u ∈ uniqDatesAux seen ds, pyLower u = pyLower x := by
  intro ds
  induction ds with
  | nil => intro seen h _; simp at h
  | cons d ds ih =>
    intro seen hx hseen
    rw [uniqDatesAux]
    by_cases hc : seen.contains (pyLower d) = true
    · rw [if_pos hc]
      rcases List.mem_cons.mp hx with h | h
      · rw [h] at hseen
        rw [hseen] at hc
        exact absurd hc Bool.false_ne_true
      · exact ih seen h hseen
    · rw [if_neg hc]
      rcases List.mem_cons.mp hx with h | h
      · exact ⟨d, List.mem_cons_self _ _, by rw [h]⟩
      · by_cases he : pyLower x = pyLower d
        · exact ⟨d, List.mem_cons_self _ _, he.symm⟩
        · have hne : (pyLower d :: seen).contains (pyLower x) = false := by
            simp only [List.contains_cons, Bool.or_eq_false_iff, beq_eq_false_iff_ne]
            exact ⟨he, hseen⟩
          obtain ⟨u, hu, hul⟩ := ih _ h hne
          exact ⟨u, List.mem_cons_of_mem _ hu, hul⟩

/-- Later outputs of the uniq-dates loop differ from the first output under
case-insensitive comparison. -/
theorem uniqDatesAux_head_ne :
    ∀ (ds seen : List String) (u : String) (rest : List String),
      uniqDatesAux seen ds = u :: rest → ∀ v ∈ rest, pyLower v ≠ pyLower u := by
  intro ds
  induction ds with
  | nil => intro seen u rest h; simp [uniqDatesAux] at h
  | cons d ds ih =>
    intro seen u rest h v hv
    rw [uniqDatesAux] at h
    by_cases hc : seen.contains (pyLower d) = true
    · rw [if_pos hc] at h
      exact ih seen u rest h v hv
    · rw [if_neg hc] at h
      injection h with hu hrest
      rw [← hrest] at hv
      have h2 := uniqDatesAux_seen_free ds (pyLower d :: seen) hv
      simp only [List.contains_cons, Bool.or_eq_false_iff, beq_eq_false_iff_ne] at h2
      exact hu ▸ h2.1

/-- Unfold the uniq-dates loop over a nonempty list with an empty accumulator. -/
theorem uniqDates_cons (d : String) (ds : List String) :
    uniqDates (d :: ds) = d :: uniqDatesAux [pyLower d] ds := by
  show uniqDatesAux [] (d :: ds) = _
  rw [uniqDatesAux, if_neg]
  simp

/-- Claim C6: for each ROF imaging group, the date clause is " on date" (with
the first-seen spelling) exactly when the group's entries carry exactly one
distinct non-empty date under case-insensitive comparison, and is empty when
the group has zero dates or more than one distinct date. -/
theorem rof_date_clause (items : List ROFEntry) :
    (dateClauseFor items = " on " ++ (datesOf items).headD "" ∧ datesOf items ≠ [] ∧
       ∀ x ∈ datesOf items, ∀ y ∈ datesOf items, pyLower x = pyLower y)
    ∨ (dateClauseFor items = "" ∧
       (datesOf items = [] ∨ ∃ x ∈ datesOf items, ∃ y ∈ datesOf items, pyLower x ≠ pyLower y)) := by
  rcases hu : uniqDates (datesOf items) with _ | ⟨d, _ | ⟨d2, rest⟩⟩
  · right
    constructor
    · simp [dateClauseFor, hu]
    · left
      rcases hd : datesOf items with _ | ⟨x, xs⟩
      · rfl
      · rw [hd, uniqDates_cons] at hu
        simp at hu
  · left
    have hd : ∃ xs, datesOf items = d :: xs := by
      rcases hds : datesOf items with _ | ⟨x, xs⟩
      · rw [hds] at hu; simp [uniqDates, uniqDatesAux] at hu
      · rw [hds, uniqDates_cons] at hu
        injection hu with h1 _
        exact ⟨xs, by rw [h1]⟩
    obtain ⟨xs, hds⟩ := hd
    refine ⟨?_, by simp [hds], ?_⟩
    · unfold dateClauseFor
      rw [hu, hds]
      rfl
    have hall : ∀ x ∈ datesOf items, pyLower x = pyLower d := by
      intro x hx
      obtain ⟨u, hu2, hul⟩ := uniqDatesAux_lower_mem (datesOf items) [] hx (by simp)
      rw [show uniqDatesAux [] (datesOf items) = [d] from hu] at hu2
      simp at hu2
      rw [← hul, hu2]
    intro x hx y hy
    rw [hall x hx, hall y hy]
  · right
    refine ⟨by simp [dateClauseFor, hu], Or.inr ?_⟩
    refine ⟨d2, uniqDatesAux_sub (datesOf items) [] ?_, d,
      uniqDatesAux_sub (datesOf items) [] ?_, ?_⟩
    · rw [show uniqDatesAux [] (datesOf items) = d :: d2 :: rest from hu]
      exact List.mem_cons_of_mem _ (List.mem_cons_self _ _)
    · rw [show uniqDatesAux [] (datesOf items) = d :: d2 :: rest from hu]
      exact List.mem_cons_self _ _
    · exact uniqDatesAux_head_ne (datesOf items) [] d (d2 :: rest) hu d2
        (List.mem_cons_self _ _)

set_option maxRecDepth 40000 in
/-- Claim C5, counterexample: the builder groups by the raw cleaned
(facility, city) pair, not by the placeholder-normalized pair the claim
describes; with facilities "(none)" and "none" the two variants differ. -/
theorem rof_grouping_cex :
    rofAutoText "ROF" "" rofPlaceholderBlocks
      ≠ rofAutoTextNormalizedGrouping "ROF" "" rofPlaceholderBlocks := by
  decide

set_option maxRecDepth 40000 in
/-- Claim C5, amended: grouping is by the raw cleaned (facility, city) pair in
first-seen order (placeholders collapse only in the rendered place phrase);
at most 4 group sentences are rendered, and with six distinct pairs of one
valid entry each the 5th and 6th groups are silently dropped. -/
theorem rof_group_cap :
    (∀ (first : String) (blocks : List ROFBlockSel),
       (rofChunks first (collectROFEntries blocks)).length ≤ 5) ∧
    rofAutoText "ROF" "John" rofSixBlocks =
      "John underwent diagnostic imaging, which included MRI studies at Alpha in Irvine. The patient also received MRI studies at Bravo in Tustin. Additionally, MRI studies were obtained at Charlie in Orange. Furthermore, MRI studies were completed at Delta in Anaheim." := by
  constructor
  · intro first blocks
    unfold rofChunks
    simp only [List.length_cons]
    have h1 := List.length_filterMap_le
      (fun p => groupChunk (collectROFEntries blocks) p.1 p.2)
      ((groupKeysOf (collectROFEntries blocks)).take 4).enum
    have h2 : ((groupKeysOf (collectROFEntries blocks)).take 4).enum.length ≤ 4 := by
      rw [List.enum_length]
      exact (List.length_take_le _ _)
    omega
  · decide

set_option maxRecDepth 40000 in
/-- Claim C10: a group whose entries all lack an imaging type and body parts
renders no sentence yet occupies one of the 4 group slots, so a later
renderable group is dropped while fewer than 4 group sentences appear. -/
theorem rof_empty_group_slot :
    rofAutoText "ROF" "" rofSlotBlocks =
      "The patient underwent diagnostic imaging, The patient also received MRI studies at Beta. Additionally, MRI studies were obtained at Gamma. Furthermore, MRI studies were completed at Delta." ∧
    (groupKeysOf (collectROFEntries rofSlotBlocks)).length = 5 ∧
    ("Alpha", "") ∈ (groupKeysOf (collectROFEntries rofSlotBlocks)).take 4 ∧
    ("Epsilon", "") ∉ (groupKeysOf (collectROFEntries rofSlotBlocks)).take 4 ∧
    detailForItems (groupItems (collectROFEntries rofSlotBlocks) ("Epsilon", "")) ≠ "" ∧
    (rofChunks "The patient" (collectROFEntries rofSlotBlocks)).length = 4 := by
  refine ⟨by decide, by decide, by decide, by decide, by decide, by decide⟩

end HOI


-- ---------------------------------------------------------------------------
-- Theorems: MOI and Plan builders (claims C1, C2, C7, C9)
-- ---------------------------------------------------------------------------

/-- Claim C1: with the section auto-flag true, invoking the MOI or the Plan
builder twice in succession on an unchanged snapshot yields byte-identical
output text both times. -/
theorem builders_idempotent (s : HOI.MOIState) (p : PlanPage.PlanState)
    (hs : s.auto = true) (hp : p.auto = true) :
    (HOI.regenMoiNow (HOI.regenMoiNow s)).text = (HOI.regenMoiNow s).text ∧
    (PlanPage.regenPlanNow (PlanPage.regenPlanNow p)).text
      = (PlanPage.regenPlanNow p).text := by
  constructor
  · by_cases hL : s.loading = true
    · simp [HOI.regenMoiNow, hL]
    · simp only [Bool.not_eq_true] at hL
      simp [HOI.regenMoiNow, hL, hs]
  · by_cases hL : p.loading = true
    · simp [PlanPage.regenPlanNow, hL]
    · simp only [Bool.not_eq_true] at hL
      simp [PlanPage.regenPlanNow, hL, hp]

/-- Witness for claim C1 at concrete MOI and Plan states with auto on. -/
theorem builders_idempotent_witness :
    (HOI.regenMoiNow (HOI.regenMoiNow HOI.moiStateA)).text
      = (HOI.regenMoiNow HOI.moiStateA).text ∧
    (PlanPage.regenPlanNow (PlanPage.regenPlanNow PlanPage.planStateA)).text
      = (PlanPage.regenPlanNow PlanPage.planStateA).text :=
  builders_idempotent HOI.moiStateA PlanPage.planStateA rfl rfl

set_option maxRecDepth 40000 in
/-- Claim C2, counterexample: starting from auto = true with generated text,
clicking the auto checkbox off leaves the flag forced back to true (the
struct-changed trace turns it on again), a subsequent driving-field change
overwrites the displayed text, and typing into the MOI box leaves the flag on
and the typed text discarded. -/
theorem moi_gate_cex :
    (HOI.toggleMoiCheckbox HOI.moiStateA).auto = true ∧
    (HOI.changeMoiField (HOI.toggleMoiCheckbox HOI.moiStateA) HOI.moiFieldsB).text
      ≠ HOI.moiStateA.text ∧
    (HOI.typeIntoMoi HOI.moiStateA "my manual edit").auto = true ∧
    (HOI.typeIntoMoi HOI.moiStateA "my manual edit").text ≠ "my manual edit" := by
  refine ⟨by decide, by decide, by decide, by decide⟩

/-- Claim C2, amended: in the MOI section any driving structured-field change
forces the auto flag ON and regenerates (even when auto was off, overwriting
the displayed text); clicking the auto checkbox always ends with the flag on
and the text regenerated; typing into the MOI box while auto is on writes the
flag off but the flag's own change-trace forces it back on and regenerates,
discarding the edit; only while auto is off (reachable only through loading a
saved exam) does typing keep the typed text and leave the flag off. -/
theorem moi_forced_auto (s : HOI.MOIState) (f : HOI.MOIFields) (t : String)
    (hL : s.loading = false) :
    (HOI.changeMoiField s f).auto = true ∧
    (HOI.changeMoiField s f).text = HOI.moiTextFor f ∧
    (HOI.toggleMoiCheckbox s).auto = true ∧
    (HOI.toggleMoiCheckbox s).text = HOI.moiTextFor s.fields ∧
    (s.auto = true → (HOI.typeIntoMoi s t).auto = true ∧
       (HOI.typeIntoMoi s t).text = HOI.moiTextFor s.fields) ∧
    (s.auto = false → (HOI.typeIntoMoi s t).auto = false ∧
       (HOI.typeIntoMoi s t).text = t) := by
  rcases hA : s.auto with _ | _
  · refine ⟨?_, ?_, ?_, ?_, ?_, ?_⟩ <;>
      simp [HOI.changeMoiField, HOI.onStructChanged, HOI.regenMoiNow,
        HOI.toggleMoiCheckbox, HOI.typeIntoMoi, hL, hA]
  · refine ⟨?_, ?_, ?_, ?_, ?_, ?_⟩ <;>
      simp [HOI.changeMoiField, HOI.onStructChanged, HOI.regenMoiNow,
        HOI.toggleMoiCheckbox, HOI.typeIntoMoi, hL, hA]

/-- Witness for claim C2's amended theorem at a concrete state. -/
theorem moi_forced_auto_witness :
    (HOI.changeMoiField HOI.moiStateA HOI.moiFieldsB).auto = true ∧
    (HOI.changeMoiField HOI.moiStateA HOI.moiFieldsB).text = HOI.moiTextFor HOI.moiFieldsB ∧
    (HOI.toggleMoiCheckbox HOI.moiStateA).auto = true ∧
    (HOI.toggleMoiCheckbox HOI.moiStateA).text = HOI.moiTextFor HOI.moiStateA.fields ∧
    (HOI.moiStateA.auto = true → (HOI.typeIntoMoi HOI.moiStateA "my manual edit").auto = true ∧
       (HOI.typeIntoMoi HOI.moiStateA "my manual edit").text = HOI.moiTextFor HOI.moiStateA.fields) ∧
    (HOI.moiStateA.auto = false → (HOI.typeIntoMoi HOI.moiStateA "my manual edit").auto = false ∧
       (HOI.typeIntoMoi HOI.moiStateA "my manual edit").text = "my manual edit") :=
  moi_forced_auto HOI.moiStateA HOI.moiFieldsB "my manual edit" rfl

set_option maxRecDepth 40000 in
/-- Claim C7, counterexample: toggling the Plan auto flag from true to false
does NOT leave the narrative verbatim for every content — when the current
text is the freshly generated narrative (which starts with the [AUTO:PLAN]
sentinel) it is cleared. -/
theorem plan_toggle_off_cex :
    (PlanPage.setPlanAuto PlanPage.planStateA false).text = "" ∧
    PlanPage.planStateA.text ≠ "" ∧
    (PlanPage.setPlanAuto PlanPage.planStateA false).auto = false := by
  refine ⟨by decide, by decide, by decide⟩

/-- Claim C7, amended: toggling the Plan auto flag off clears the narrative
when its stripped content starts with the [AUTO:PLAN] sentinel and otherwise
preserves it verbatim; toggling the flag back on discards whatever is present
and regenerates; typing into the Plan narrative box never touches the flag. -/
theorem plan_auto_gate (s : PlanPage.PlanState) (t : String)
    (hL : s.loading = false) (hsync : s.lastAuto = s.auto) :
    (s.auto = true →
       (PlanPage.setPlanAuto s false).text
         = (if HOI.pyStartsWith (pyStrip s.text) PlanPage.AUTO_PLAN_TAG then "" else s.text) ∧
       (PlanPage.setPlanAuto s false).auto = false) ∧
    (s.auto = false →
       (PlanPage.setPlanAuto s true).text = PlanPage.planGenText s.fields ∧
       (PlanPage.setPlanAuto s true).auto = true) ∧
    (PlanPage.typeIntoPlan s t).auto = s.auto ∧
    (PlanPage.typeIntoPlan s t).text = t := by
  refine ⟨?_, ?_, ?_, ?_⟩
  · intro hA
    rw [hA] at hsync
    constructor
    · simp [PlanPage.setPlanAuto, PlanPage.planAutoToggled, PlanPage.regenPlanNow, hL, hsync]
      by_cases hS : HOI.pyStartsWith (pyStrip s.text) PlanPage.AUTO_PLAN_TAG = true
      · simp [hS]
      · simp only [Bool.not_eq_true] at hS
        simp [hS]
    · simp [PlanPage.setPlanAuto, PlanPage.planAutoToggled, PlanPage.regenPlanNow, hL, hsync]
      split <;> rfl
  · intro hA
    rw [hA] at hsync
    constructor
    · simp [PlanPage.setPlanAuto, PlanPage.planAutoToggled, PlanPage.regenPlanNow, hL, hsync]
    · simp [PlanPage.setPlanAuto, PlanPage.planAutoToggled, PlanPage.regenPlanNow, hL, hsync]
  · rfl
  · rfl

/-- Witness for claim C7's amended theorem at a concrete state. -/
theorem plan_auto_gate_witness :
    (PlanPage.planStateA.auto = true →
       (PlanPage.setPlanAuto PlanPage.planStateA false).text
         = (if HOI.pyStartsWith (pyStrip PlanPage.planStateA.text) PlanPage.AUTO_PLAN_TAG
            then "" else PlanPage.planStateA.text) ∧
       (PlanPage.setPlanAuto PlanPage.planStateA false).auto = false) ∧
    (PlanPage.planStateA.auto = false →
       (PlanPage.setPlanAuto PlanPage.planStateA true).text
         = PlanPage.planGenText PlanPage.planStateA.fields ∧
       (PlanPage.setPlanAuto PlanPage.planStateA true).auto = true) ∧
    (PlanPage.typeIntoPlan PlanPage.planStateA "my own plan").auto = PlanPage.planStateA.auto ∧
    (PlanPage.typeIntoPlan PlanPage.planStateA "my own plan").text = "my own plan" :=
  plan_auto_gate PlanPage.planStateA "my own plan" rfl rfl

set_option maxRecDepth 40000 in
/-- Claim C9: the end-to-end Auto Accident scenario generates exactly the
specified first paragraph (and the full MOI text consists of that paragraph,
the no-treatment paragraph, and the sentinel). -/
theorem moi_auto_accident_scenario :
    HOI.moiParagraph1 HOI.c9Fields
      = "John reports he was involved in a moving vehicle accident on 01/15/2024. The patient states the rear portion of the other vehicle struck his vehicle on the driver side, and the mechanism of injury most closely resembles a rear-end collision." ∧
    HOI.moiTextFor HOI.c9Fields
      = "John reports he was involved in a moving vehicle accident on 01/15/2024. The patient states the rear portion of the other vehicle struck his vehicle on the driver side, and the mechanism of injury most closely resembles a rear-end collision.\n\nThe patient did not receive medical treatment immediately following the incident.\n\n[AUTO:MOI]" := by
  refine ⟨by decide, by decide⟩


-- ---------------------------------------------------------------------------
-- Theorems: Therapy-Only ordering, sentinel strips, descriptor guard
-- ---------------------------------------------------------------------------

/-- Claim C3, evaluated at the failing input (check "Upper Back", then check
"Neck"): the order list and the stored main are first-checked-wins as the
claim says, but the narrative's first sentence names "Neck" — the first
checked element of the FIXED checklist — and build_therapy_paragraph even
overwrites the stored main with it. -/
theorem therapy_main_bug :
    Subjectives.therapyAfter.order = ["Upper Back", "Neck"] ∧
    Subjectives.therapyAfter.main = some ("Upper Back") ∧
    (Subjectives.buildTherapyParagraph Subjectives.therapyAfter).1
      = "The patient states that today the worst symptoms are located in the following area: Neck region. The patient also feels symptoms in the Upper Back." ∧
    (Subjectives.buildTherapyParagraph Subjectives.therapyAfter).2.main = some ("Neck") := by
  refine ⟨by decide, by decide, by decide, by decide⟩

set_option maxRecDepth 40000 in
/-- Claim C4, counterexample: the DX strips match the tag case-SENSITIVELY
(a lower-case trailing tag survives, where the claim's rule removes it); the
MOI PDF strip removes a NON-trailing tag occurrence the claim's rule keeps;
and stripping a tag-free string is not the identity (outer whitespace goes). -/
theorem strip_rule_cex :
    Strip.stripAutoTagDxPage "x\n[auto:dx]" = "x\n[auto:dx]" ∧
    Strip.specStripTag "[AUTO:DX]" "x\n[auto:dx]" = "x" ∧
    Strip.stripAutoTagHOIpdf "[AUTO:MOI]\nkeep this line" = "keep this line" ∧
    Strip.specStripTag "[AUTO:MOI]" "[AUTO:MOI]\nkeep this line" = "[AUTO:MOI]\nkeep this line" ∧
    Strip.stripAutoTagDxPage "  no tag here  " = "no tag here" := by
  refine ⟨by decide, by decide, by decide, by decide, by decide⟩

set_option maxRecDepth 40000 in
/-- Claim C4, amended: the diagnosis-page strip and the export-side DX strip
are extensionally identical (both drop a trailing line that equals
"[AUTO:DX]" exactly, case-sensitively, and trim the whole result), while the
MOI PDF strip follows a different rule: it deletes every case-insensitive
occurrence of "[AUTO:MOI]" together with adjacent whitespace, and trims. -/
theorem dx_strips_agree :
    (∀ t : String, Strip.stripAutoTagDxPage t = Strip.stripDxAutoTagExport t) ∧
    Strip.stripAutoTagDxPage "Dx list\n[AUTO:DX]" = "Dx list" ∧
    Strip.stripDxAutoTagExport "Dx list\n[AUTO:DX]" = "Dx list" ∧
    Strip.stripAutoTagHOIpdf "before [auto:moi] after" = "beforeafter" := by
  refine ⟨fun t => rfl, by decide, by decide, by decide⟩

set_option maxRecDepth 40000 in
/-- Claim C8, counterexample: with the region unset, update_narrative clears
a user-edited narrative that matches no lead-in phrase; and with a valid
region, a narrative containing a lead-in phrase as a plain substring (but not
at word boundaries) is preserved although the claim's plain-containment rule
says it is overwritten. -/
theorem descriptor_guard_cex :
    (UiBlocks.updateNarrative true UiBlocks.descStateNone).narrative = "" ∧
    UiBlocks.descStateNone.narrative = "my personal note" ∧
    UiBlocks.claimLooksAuto (pyStrip UiBlocks.descStateNone.narrative) = false ∧
    (UiBlocks.updateNarrative true UiBlocks.descStateCS).narrative
      = UiBlocks.descStateCS.narrative ∧
    UiBlocks.claimLooksAuto (pyStrip UiBlocks.descStateCS.narrative) = true := by
  refine ⟨by decide, by decide, by decide, by decide, by decide⟩

/-- Claim C8, amended: when the block's region resolves to a valid label, the
displayed narrative is overwritten with the freshly generated text exactly
when its stripped content is empty or one of the three lead-in patterns is
found case-insensitively at word boundaries; any other text is preserved
verbatim.  (When the region is unset or unknown the narrative is instead
cleared unconditionally, as the counterexample shows.) -/
theorem descriptor_guard (s : UiBlocks.DescriptorState) (ov : Bool)
    (hload : s.loadingFromFile = false)
    (hreg : s.region ≠ "(none)")
    (hlab : UiBlocks.regionLabelFor s.region ≠ "") :
    (UiBlocks.looksAuto (pyStrip s.narrative) = true →
       (UiBlocks.updateNarrative ov s).narrative = UiBlocks.descriptorAutoSentence s) ∧
    (UiBlocks.looksAuto (pyStrip s.narrative) = false →
       UiBlocks.updateNarrative ov s = s) := by
  have h1 : (s.region == "(none)") = false := beq_eq_false_iff_ne.mpr hreg
  have h2 : (UiBlocks.regionLabelFor s.region == "") = false := beq_eq_false_iff_ne.mpr hlab
  constructor
  · intro hla
    simp [UiBlocks.updateNarrative, hload, h1, h2, hla]
  · intro hla
    simp [UiBlocks.updateNarrative, hload, h1, h2, hla]

/-- Witness for claim C8's amended theorem at a concrete state (valid region,
empty narrative: the guard judges it auto and overwrites). -/
theorem descriptor_guard_witness :
    (UiBlocks.looksAuto (pyStrip UiBlocks.descStateFresh.narrative) = true →
       (UiBlocks.updateNarrative true UiBlocks.descStateFresh).narrative
         = UiBlocks.descriptorAutoSentence UiBlocks.descStateFresh) ∧
    (UiBlocks.looksAuto (pyStrip UiBlocks.descStateFresh.narrative) = false →
       UiBlocks.updateNarrative true UiBlocks.descStateFresh = UiBlocks.descStateFresh) :=
  descriptor_guard UiBlocks.descStateFresh true rfl (by decide) (by decide)

end ChiroEMR
